import Mathlib

/-!
Verification development for the Cisco fusion-router configuration
generator (`src/app.py`).  The Python source is shallowly embedded:
strings are lists of characters (`Str`), Python's line-scanning state
machines become folds over line lists, and fallible code returns
`Option`/`Except`.  The web layer, on-disk persistence and Jinja
template rendering are out of scope; the embedded functions model the
parser (`CiscoConfigParser`), the address calculator, the validators
and the synthesis engine, faithfully including their quirks
(gutter stripping, Python truthiness of empty strings, the
`lines.index(line)` first-occurrence lookup in the BGP default-VRF
gate, and the `source_interface` variable left unassigned for unknown
interface modes).
-/

set_option maxRecDepth 40000

/-- Characters of a Python string. -/
abbrev Str := List Char

/-- Python `s.startswith(pat)`. -/
def startsWith : Str → Str → Bool
  | [], _ => true
  | _ :: _, [] => false
  | p :: ps, c :: cs => p = c && startsWith ps cs

/-- Python `pat in s` (substring containment). -/
def containsSub (pat : Str) : Str → Bool
  | [] => startsWith pat []
  | c :: cs => startsWith pat (c :: cs) || containsSub pat cs

/-- Python `s.strip()` (ASCII whitespace; the configs in scope are ASCII). -/
def strip (s : Str) : Str :=
  ((s.dropWhile Char.isWhitespace).reverse.dropWhile Char.isWhitespace).reverse

/-- Python `s.split(c)` for a one-character separator: split on every
occurrence, keeping empty pieces. -/
def splitOnChar (c : Char) : Str → List Str
  | [] => [[]]
  | x :: xs =>
    if x = c then [] :: splitOnChar c xs
    else
      match splitOnChar c xs with
      | [] => [[x]]
      | a :: as => (x :: a) :: as

/-- Python `s.split(c, 1)` restricted to the first occurrence: returns the
pieces before and after the first `c`, or `none` when `c` does not occur. -/
def splitOnceChar (c : Char) : Str → Option (Str × Str)
  | [] => none
  | x :: xs =>
    if x = c then some ([], xs)
    else (splitOnceChar c xs).map (fun p => (x :: p.1, p.2))

/-- Index of the first occurrence of `pat` as a contiguous substring. -/
def findSub (pat : Str) : Str → Option Nat
  | [] => if startsWith pat [] then some 0 else none
  | c :: cs =>
    if startsWith pat (c :: cs) then some 0
    else (findSub pat cs).map (· + 1)

/-- Fuel-driven worker for `splitOnStr`; the fuel never runs out for a
non-empty separator. -/
def splitOnStrFuel : Nat → Str → Str → List Str
  | 0, _, s => [s]
  | fuel + 1, sep, s =>
    match findSub sep s with
    | none => [s]
    | some i => s.take i :: splitOnStrFuel fuel sep (s.drop (i + sep.length))

/-- Python `s.split(sep)` for a non-empty multi-character separator. -/
def splitOnStr (sep s : Str) : List Str :=
  splitOnStrFuel (s.length + 1) sep s

/-- Python `s.split(sep, 1)[1]` when `sep` occurs in `s` (and `s` itself
otherwise): everything after the first occurrence of `sep`. -/
def splitOnceAfter (sep s : Str) : Str :=
  match findSub sep s with
  | some i => s.drop (i + sep.length)
  | none => s

/-- Python `s.split()`: split on whitespace runs, discarding empty pieces. -/
def splitWS : Str → List Str
  | [] => []
  | c :: cs =>
    if Char.isWhitespace c then splitWS cs
    else
      match splitWS cs with
      | [] => [[c]]
      | a :: as =>
        match cs with
        | [] => [[c]]
        | d :: _ => if Char.isWhitespace d then [c] :: a :: as else (c :: a) :: as

/-- Join pieces with a one-character separator (Python `c.join(ls)`). -/
def joinChar (c : Char) : List Str → Str
  | [] => []
  | [a] => a
  | a :: as => a ++ c :: joinChar c as

/-- Join pieces with a string separator (Python `sep.join(ls)`). -/
def joinSep (sep : Str) : List Str → Str
  | [] => []
  | [a] => a
  | a :: as => a ++ sep ++ joinSep sep as

/-- Decimal digit character for `0 ≤ n ≤ 9`. -/
def digitChar (n : Nat) : Char :=
  if n = 0 then '0' else if n = 1 then '1' else if n = 2 then '2'
  else if n = 3 then '3' else if n = 4 then '4' else if n = 5 then '5'
  else if n = 6 then '6' else if n = 7 then '7' else if n = 8 then '8' else '9'

/-- Decimal representation of an octet value (enough for `n ≤ 999`). -/
def natDigits (n : Nat) : Str :=
  if n < 10 then [digitChar n]
  else if n < 100 then [digitChar (n / 10), digitChar (n % 10)]
  else [digitChar (n / 100), digitChar (n / 10 % 10), digitChar (n % 10)]

/-- Fuel-driven worker for `natRepr`. -/
def natReprAux : Nat → Nat → Str → Str
  | 0, _, acc => acc
  | fuel + 1, n, acc =>
    if n < 10 then digitChar n :: acc
    else natReprAux fuel (n / 10) (digitChar (n % 10) :: acc)

/-- Decimal representation of an arbitrary natural number (Python `str(n)`). -/
def natRepr (n : Nat) : Str :=
  natReprAux (n + 1) n []

/-- Numeric value of a digit character. -/
def digitVal (c : Char) : Nat := c.toNat - 48

/-- Python `int(s)` for a string of decimal digits. -/
def strToNat (s : Str) : Nat :=
  s.foldl (fun a c => a * 10 + digitVal c) 0

/-- Python `ipaddress`-style octet parsing: 1–3 ASCII digits, no leading
zero (unless the octet is exactly `0`), value at most 255. -/
def parseOctet (p : Str) : Option Nat :=
  if p ≠ [] ∧ p.length ≤ 3 ∧ p.all Char.isDigit ∧ (p.length ≤ 1 ∨ p.head? ≠ some '0') then
    if strToNat p ≤ 255 then some (strToNat p) else none
  else none

/-- Python `ipaddress.ip_address(s)` restricted to IPv4 (the configs in
scope hold dotted-quad addresses): four dot-separated octets, returned as
the 32-bit numeric value. -/
def parseIPv4 (s : Str) : Option Nat :=
  match (splitOnChar '.' s).mapM parseOctet with
  | some [a, b, c, d] => some (((a * 256 + b) * 256 + c) * 256 + d)
  | _ => none

/-- Python `str(IPv4Address(v))`: canonical dotted-quad text. -/
def ipToString (v : Nat) : Str :=
  joinChar '.'
    [natDigits (v / 16777216 % 256), natDigits (v / 65536 % 256),
     natDigits (v / 256 % 256), natDigits (v % 256)]

/-! ## Configuration text parser (`CiscoConfigParser`) -/

/-- Gutter stripping from `CiscoConfigParser.__init__`: a line containing
`|` is split at its first `|` and only the substring after it is kept. -/
def stripGutter (l : Str) : Str :=
  match splitOnceChar '|' l with
  | some p => p.2
  | none => l

/-- The parser's `self.lines`: every raw line with its gutter stripped. -/
def cleanLines (raw : List Str) : List Str :=
  raw.map stripGutter

/-- Hostname extraction applied to a matching line:
`line.split('hostname ')[1].strip()`. -/
def hostnameExtract (l : Str) : Str :=
  strip ((splitOnStr "hostname ".data l).getD 1 [])

/-- The method `get_hostname`: first line starting with `hostname `. -/
def get_hostname : List Str → Option Str
  | [] => none
  | l :: rest =>
    if startsWith "hostname ".data l then some (hostnameExtract l)
    else get_hostname rest

/-- Scanning state of `get_loopback0_ip` once `interface Loopback0` was seen. -/
def loopbackScan : List Str → Option Str
  | [] => none
  | l :: rest =>
    if startsWith "interface Loopback0".data l then loopbackScan rest
    else if startsWith " ip address ".data l then
      let parts := splitWS (strip l)
      if parts.length ≥ 3 then some (parts.getD 2 []) else loopbackScan rest
    else if startsWith "interface ".data l then none
    else loopbackScan rest

/-- The method `get_loopback0_ip`. -/
def get_loopback0_ip : List Str → Option Str
  | [] => none
  | l :: rest =>
    if startsWith "interface Loopback0".data l then loopbackScan rest
    else get_loopback0_ip rest

/-- A `neighbor <ip> remote-as <asn>` record. -/
structure BgpNeighbor where
  ip : Str
  remote_as : Str
deriving DecidableEq

/-- The dictionary built by `get_bgp_config`. -/
structure BgpConfig where
  as_number : Option Str
  default_vrf_neighbors : List BgpNeighbor
  vrf_neighbors : List (Str × List BgpNeighbor)
deriving DecidableEq

/-- Python truthiness of an optional string (`None` and `''` are falsy). -/
def truthyS : Option Str → Bool
  | none => false
  | some s => !s.isEmpty

/-- Predicate of the default-VRF gate:
`'address-family ipv4' in l and 'vrf' not in l`. -/
def isDefaultAf (l : Str) : Bool :=
  containsSub "address-family ipv4".data l && !containsSub "vrf".data l

/-- Match of `re.match(r'\s*neighbor\s+([\d\.]+)\s+remote-as\s+(\d+)', line)`.
The character classes are disjoint from the literals that follow them, so the
greedy regex is equivalent to this deterministic scan. -/
def matchNeighbor (line : Str) : Option BgpNeighbor :=
  let s0 := line.dropWhile Char.isWhitespace
  if startsWith "neighbor".data s0 then
    let s1 := s0.drop 8
    let ws1 := s1.takeWhile Char.isWhitespace
    if ws1.isEmpty then none
    else
      let s2 := s1.dropWhile Char.isWhitespace
      let ip := s2.takeWhile (fun c => c.isDigit || c = '.')
      if ip.isEmpty then none
      else
        let s3 := s2.dropWhile (fun c => c.isDigit || c = '.')
        let ws2 := s3.takeWhile Char.isWhitespace
        if ws2.isEmpty then none
        else
          let s4 := s3.dropWhile Char.isWhitespace
          if startsWith "remote-as".data s4 then
            let s5 := s4.drop 9
            let ws3 := s5.takeWhile Char.isWhitespace
            if ws3.isEmpty then none
            else
              let s6 := s5.dropWhile Char.isWhitespace
              let ras := s6.takeWhile Char.isDigit
              if ras.isEmpty then none else some ⟨ip, ras⟩
          else none
  else none

/-- Register an empty neighbor list for a VRF name if it is new
(`if vrf_name not in bgp_config['vrf_neighbors']`). -/
def registerVrf (m : List (Str × List BgpNeighbor)) (k : Str) :
    List (Str × List BgpNeighbor) :=
  if m.any (fun p => p.1 = k) then m else m ++ [(k, [])]

/-- Append a neighbor to a VRF's bucket (`vrf_neighbors[current_vrf].append`). -/
def appendVrf : List (Str × List BgpNeighbor) → Str → BgpNeighbor →
    List (Str × List BgpNeighbor)
  | [], k, v => [(k, [v])]
  | (k', vs) :: rest, k, v =>
    if k' = k then (k', vs ++ [v]) :: rest else (k', vs) :: appendVrf rest k v

/-- Scanning state of `get_bgp_config`. -/
structure BgpScan where
  cfg : BgpConfig
  in_bgp : Bool
  current_vrf : Option Str
deriving DecidableEq

/-- Handling of a matched neighbor line outside a truthy VRF context: the
default-VRF gate checks `self.lines[:self.lines.index(line)]`, i.e. the
prefix up to the FIRST occurrence of a line equal to `line`. -/
def bgpDefaultPath (allLines : List Str) (st : BgpScan) (line : Str)
    (nbr : BgpNeighbor) : BgpScan :=
  if (allLines.take (allLines.indexOf line)).any isDefaultAf then
    { st with cfg :=
        { st.cfg with default_vrf_neighbors := st.cfg.default_vrf_neighbors ++ [nbr] } }
  else st

/-- One line of the `get_bgp_config` scan. -/
def bgpStep (allLines : List Str) (st : BgpScan) (line : Str) : BgpScan :=
  if startsWith "router bgp ".data line then
    { st with
      cfg := { st.cfg with
        as_number := some (strip ((splitOnStr "router bgp ".data line).getD 1 [])) }
      in_bgp := true }
  else if st.in_bgp then
    if startsWith "!".data line then { st with in_bgp := false, current_vrf := none }
    else if startsWith "address-family ipv4 vrf ".data (strip line) then
      let vrfName := strip ((splitOnStr "vrf ".data (strip line)).getD 1 [])
      { st with
        current_vrf := some vrfName
        cfg := { st.cfg with vrf_neighbors := registerVrf st.cfg.vrf_neighbors vrfName } }
    else if startsWith "exit-address-family".data (strip line) then
      { st with current_vrf := none }
    else if startsWith "neighbor ".data (strip line) then
      match matchNeighbor line with
      | none => st
      | some nbr =>
        if truthyS st.current_vrf then
          { st with cfg := { st.cfg with
              vrf_neighbors := appendVrf st.cfg.vrf_neighbors (st.current_vrf.getD []) nbr } }
        else bgpDefaultPath allLines st line nbr
    else st
  else st

/-- The method `get_bgp_config`: a single left-to-right scan. -/
def get_bgp_config (lines : List Str) : BgpConfig :=
  (lines.foldl (bgpStep lines) ⟨⟨none, [], []⟩, false, none⟩).cfg

/-- A VLAN interface record as built by `get_vlan_interfaces`. -/
structure VlanRec where
  vlan : Str
  ip_address : Option Str := none
  subnet_mask : Option Str := none
  vrf : Option Str := none
  description : Option Str := none
  bfd_enabled : Bool := false
  bfd_interval : Option Str := none
  bfd_min_rx : Option Str := none
  bfd_multiplier : Option Str := none
deriving DecidableEq, Inhabited

/-- Match of `re.match(r'bfd interval (\d+) min_rx (\d+) multiplier (\d+)', s)`. -/
def matchBfd (s : Str) : Option (Str × Str × Str) :=
  if startsWith "bfd interval ".data s then
    let s1 := s.drop 13
    let a := s1.takeWhile Char.isDigit
    if a.isEmpty then none
    else
      let s2 := s1.dropWhile Char.isDigit
      if startsWith " min_rx ".data s2 then
        let s3 := s2.drop 8
        let b := s3.takeWhile Char.isDigit
        if b.isEmpty then none
        else
          let s4 := s3.dropWhile Char.isDigit
          if startsWith " multiplier ".data s4 then
            let s5 := s4.drop 12
            let c := s5.takeWhile Char.isDigit
            if c.isEmpty then none else some (a, b, c)
          else none
      else none
  else none

/-- Scanning state of `get_vlan_interfaces`. -/
structure VlanScan where
  current_vlan : Option Str
  current_config : Option VlanRec
  out : List VlanRec
deriving DecidableEq

/-- One line of the `get_vlan_interfaces` scan.  `current_vlan` follows
Python truthiness (an empty VLAN id behaves like no VLAN in progress), and
flushes mirror `if current_vlan and current_config` / `if current_config`. -/
def vlanStep (st : VlanScan) (line : Str) : VlanScan :=
  if startsWith "interface Vlan".data line then
    let flushed :=
      if truthyS st.current_vlan ∧ st.current_config.isSome then
        st.out ++ (match st.current_config with | some c => [c] | none => [])
      else st.out
    let vlanNum := strip ((splitOnStr "Vlan".data line).getD 1 [])
    { current_vlan := some vlanNum, current_config := some { vlan := vlanNum }, out := flushed }
  else if truthyS st.current_vlan then
    if startsWith "interface ".data line then
      { current_vlan := none
        current_config := none
        out := st.out ++ (match st.current_config with | some c => [c] | none => []) }
    else
      let ls := strip line
      if startsWith "ip address ".data ls then
        let parts := splitWS ls
        if parts.length ≥ 4 then
          { st with current_config := st.current_config.map (fun c =>
              { c with
                  ip_address := some (parts.getD 2 [])
                  subnet_mask := some (parts.getD 3 []) }) }
        else st
      else if startsWith "vrf forwarding ".data ls then
        { st with current_config := st.current_config.map (fun c =>
            { c with vrf := some ((splitOnStr "vrf forwarding ".data ls).getD 1 []) }) }
      else if startsWith "description ".data ls then
        { st with current_config := st.current_config.map (fun c =>
            { c with description := some (splitOnceAfter "description ".data ls) }) }
      else if startsWith "bfd interval ".data ls then
        { st with current_config := st.current_config.map (fun c =>
            match matchBfd ls with
            | some t =>
                { c with
                  bfd_enabled := true
                  bfd_interval := some t.1
                  bfd_min_rx := some t.2.1
                  bfd_multiplier := some t.2.2 }
            | none => { c with bfd_enabled := true }) }
      else st
  else st

/-- All VLAN records accumulated by the scan, before the /30 filter
(including the final flush). -/
def rawVlans (lines : List Str) : List VlanRec :=
  let st := lines.foldl vlanStep ⟨none, none, []⟩
  if truthyS st.current_vlan ∧ st.current_config.isSome then
    st.out ++ (match st.current_config with | some c => [c] | none => [])
  else st.out

/-- The /30 filter of `get_vlan_interfaces`:
`vlan['ip_address'] and vlan['subnet_mask'] == '255.255.255.252'`. -/
def vlanKeep (v : VlanRec) : Bool :=
  truthyS v.ip_address && decide (v.subnet_mask = some "255.255.255.252".data)

/-- The method `get_vlan_interfaces`: scan, then keep only /30 records. -/
def get_vlan_interfaces (lines : List Str) : List VlanRec :=
  (rawVlans lines).filter vlanKeep

/-- A physical-interface record as built by `extract_physical_interfaces`. -/
structure PhysIf where
  name : Str
  description : Option Str := none
  mode : Option Str := none
  allowed_vlans : Option Str := none
  access_vlan : Option Str := none
  shutdown : Bool := false
  ip_address : Option Str := none
  subnet_mask : Option Str := none
deriving DecidableEq, Inhabited

/-- Match of the anchored physical-interface pattern
`^interface (GigabitEthernet|TenGigabitEthernet|FortyGigE|HundredGigE|TwentyFiveGigE|Port-channel)[\d/.]+`.
No alternative is a prefix of another, so existence of a matching
alternative is order-independent. -/
def physNameMatch (line : Str) : Bool :=
  if startsWith "interface ".data line then
    let rest := line.drop 10
    ["GigabitEthernet".data, "TenGigabitEthernet".data, "FortyGigE".data,
     "HundredGigE".data, "TwentyFiveGigE".data, "Port-channel".data].any (fun pre =>
      startsWith pre rest &&
        match (rest.drop pre.length).head? with
        | some c => c.isDigit || c = '/' || c = '.'
        | none => false)
  else false

/-- Scanning state of `extract_physical_interfaces`. -/
structure PhysScan where
  current_interface : Option Str
  current_config : Option PhysIf
  out : List PhysIf
deriving DecidableEq

/-- One line of the `extract_physical_interfaces` scan. -/
def physStep (st : PhysScan) (line : Str) : PhysScan :=
  if physNameMatch line then
    let flushed :=
      if truthyS st.current_interface ∧ st.current_config.isSome then
        st.out ++ (match st.current_config with | some c => [c] | none => [])
      else st.out
    let name := strip ((splitOnStr "interface ".data line).getD 1 [])
    { current_interface := some name, current_config := some { name := name }, out := flushed }
  else if truthyS st.current_interface then
    if startsWith "interface ".data line || startsWith "!".data line then
      { current_interface := none
        current_config := none
        out := st.out ++ (match st.current_config with | some c => [c] | none => []) }
    else
      let ls := strip line
      if startsWith "description ".data ls then
        { st with current_config := st.current_config.map (fun c =>
            { c with description := some (splitOnceAfter "description ".data ls) }) }
      else if ls = "switchport mode trunk".data then
        { st with current_config := st.current_config.map (fun c =>
            { c with mode := some "trunk".data }) }
      else if ls = "switchport mode access".data then
        { st with current_config := st.current_config.map (fun c =>
            { c with mode := some "access".data }) }
      else if startsWith "switchport trunk allowed vlan ".data ls then
        { st with current_config := st.current_config.map (fun c =>
            { c with allowed_vlans := some ((splitOnStr "switchport trunk allowed vlan ".data ls).getD 1 []) }) }
      else if startsWith "switchport access vlan ".data ls then
        { st with current_config := st.current_config.map (fun c =>
            { c with access_vlan := some ((splitOnStr "switchport access vlan ".data ls).getD 1 []) }) }
      else if ls = "shutdown".data then
        { st with current_config := st.current_config.map (fun c =>
            { c with shutdown := true }) }
      else if startsWith "ip address ".data ls then
        { st with current_config := st.current_config.map (fun c =>
            let parts := splitWS ls
            if parts.length ≥ 4 then
              { c with
                  mode := some "routed".data
                  ip_address := some (parts.getD 2 [])
                  subnet_mask := some (parts.getD 3 []) }
            else { c with mode := some "routed".data }) }
      else st
  else st

/-- The method `extract_physical_interfaces`. -/
def extract_physical_interfaces (lines : List Str) : List PhysIf :=
  let st := lines.foldl physStep ⟨none, none, []⟩
  if truthyS st.current_interface ∧ st.current_config.isSome then
    st.out ++ (match st.current_config with | some c => [c] | none => [])
  else st.out

/-- The parser's output model (`CiscoConfigParser.parse`). -/
structure BorderModel where
  hostname : Option Str
  loopback0_ip : Option Str
  bgp : BgpConfig
  vlan_interfaces : List VlanRec
  physical_interfaces : List PhysIf
deriving DecidableEq

/-- Parse from already-gutter-stripped lines (the body of `parse`). -/
def parseCleaned (lines : List Str) : BorderModel :=
  { hostname := get_hostname lines
    loopback0_ip := get_loopback0_ip lines
    bgp := get_bgp_config lines
    vlan_interfaces := get_vlan_interfaces lines
    physical_interfaces := extract_physical_interfaces lines }

/-- The method `parse` on a list of raw lines: strip gutters, then extract.
`parse` itself is total; no input makes it fail. -/
def parseConfig (raw : List Str) : BorderModel :=
  parseCleaned (cleanLines raw)

/-- The method `parse` on a whole text blob (split at newlines first). -/
def parseText (t : Str) : BorderModel :=
  parseConfig (splitOnChar '\n' t)

/-- The caller's failure test in `upload_configs`:
`if not parsed_data['hostname']` — true for an absent hostname and for an
empty extracted hostname alike (Python falsiness). -/
def callerRejects (raw : List Str) : Bool :=
  match (parseConfig raw).hostname with
  | none => true
  | some h => h.isEmpty

/-! ## Address calculator (`calculate_fusion_router_ip`) -/

/-- The value-level /30 peer: the other usable host of the /30 containing `v`. -/
def fusionPeerVal (v : Nat) : Nat :=
  if v % 4 = 1 then v + 1 else v - 1

/-- The function `calculate_fusion_router_ip`: infer the /30 from the input
address, compare the input text against the canonical text of the two usable
hosts, and return the other one.  Failures (malformed input, input equal to
the network or broadcast address) yield `none`; the function is total. -/
def calculate_fusion_router_ip (s : Str) : Option Str :=
  match parseIPv4 s with
  | none => none
  | some v =>
    let network := v - v % 4
    let hosts := [network + 1, network + 2]
    if hosts.length ≠ 2 then none
    else if ipToString (network + 1) = s then some (ipToString (network + 2))
    else if ipToString (network + 2) = s then some (ipToString (network + 1))
    else none

/-! ## Field validators -/

/-- Python `re` without `re.MULTILINE`: `$` matches at the end of the
string or just before a single trailing newline.  The bodies of the
anchored patterns modeled below never match a newline, so a `^body$`
pattern matches `s` exactly when `body` matches all of `s` with one
trailing newline removed. -/
def dollarTrim (s : Str) : Str :=
  if s.getLast? = some '\n' then s.dropLast else s

/-- The function `validate_vrf_name`.  The match of
`re.match(r'^[a-zA-Z0-9_-]+$', vrf_name)` accepts a name with one trailing
newline (the `$` quirk); the required and length checks use the raw name. -/
def validate_vrf_name (nm : Str) : Bool × Option Str :=
  if nm.isEmpty then (false, some "VRF name is required".data)
  else if nm.length > 32 then (false, some "VRF name must be 32 characters or less".data)
  else if !(!(dollarTrim nm).isEmpty &&
      (dollarTrim nm).all (fun c => c.isAlphanum || c = '_' || c = '-')) then
    (false, some "VRF name must contain only letters, numbers, underscores, and hyphens".data)
  else (true, none)

/-- Match of `re.match(r'^(\d+):(\d+)$', rd)`: both groups exclude `:`, so
after stripping the single trailing newline that `$` tolerates, a match is
exactly a single-colon split into two non-empty digit strings.  The
embedding is scoped to ASCII text, where `\d` is `[0-9]` (outside ASCII,
Python's `\d` also covers Unicode decimal digits). -/
def matchAsnFormat (rd : Str) : Option (Str × Str) :=
  match splitOnChar ':' (dollarTrim rd) with
  | [a, n] =>
    if !a.isEmpty && a.all Char.isDigit && !n.isEmpty && n.all Char.isDigit then
      some (a, n)
    else none
  | _ => none

/-- Match of `re.match(r'^([\d\.]+):(\d+)$', rd)`, with the same
`$`-trailing-newline tolerance and ASCII scope as `matchAsnFormat`. -/
def matchIpFormat (rd : Str) : Option (Str × Str) :=
  match splitOnChar ':' (dollarTrim rd) with
  | [a, n] =>
    if !a.isEmpty && a.all (fun c => c.isDigit || c = '.') &&
        !n.isEmpty && n.all Char.isDigit then
      some (a, n)
    else none
  | _ => none

/-- Error message of the required-field branch of `validate_route_distinguisher`. -/
def rdRequiredMsg : Str := "Route Distinguisher is required".data

/-- Error message of the format branch of `validate_route_distinguisher`. -/
def rdFormatMsg : Str :=
  "Route Distinguisher must be in format 'ASN:NN' (e.g., 65000:100) or 'IP:NN' (e.g., 10.0.0.1:100)".data

/-- The function `validate_route_distinguisher`: `ASN:NN` with
`ASN ≤ 4294967295` and `NN ≤ 65535`, else `IP:NN` with a valid address and
`NN ≤ 65535`, else the format error.  An IPv6 address cannot match
`[\d\.]+`, so `ip_address` is IPv4 here. -/
def validate_route_distinguisher (rd : Str) : Bool × Option Str :=
  if rd.isEmpty then (false, some rdRequiredMsg)
  else
    match matchAsnFormat rd with
    | some p =>
      if strToNat p.1 ≤ 4294967295 ∧ strToNat p.2 ≤ 65535 then (true, none)
      else
        match matchIpFormat rd with
        | some q =>
          if (parseIPv4 q.1).isSome ∧ strToNat q.2 ≤ 65535 then (true, none)
          else (false, some rdFormatMsg)
        | none => (false, some rdFormatMsg)
    | none =>
      match matchIpFormat rd with
      | some q =>
        if (parseIPv4 q.1).isSome ∧ strToNat q.2 ≤ 65535 then (true, none)
        else (false, some rdFormatMsg)
      | none => (false, some rdFormatMsg)

/-- The well-formedness condition of the amended claim: `A:N`, optionally
followed by a single trailing newline (accepted because of the `$` quirk),
where either `A` is a decimal number at most 4294967295 and `N` a decimal
number at most 65535, or `A` is a syntactically valid IPv4 address and
`N ≤ 65535`. -/
def rdWellFormed (rd : Str) : Prop :=
  ∃ a n : Str, (rd = a ++ ':' :: n ∨ rd = (a ++ ':' :: n) ++ ['\n']) ∧
    n ≠ [] ∧ (∀ c ∈ n, c.isDigit) ∧ strToNat n ≤ 65535 ∧
    ((a ≠ [] ∧ (∀ c ∈ a, c.isDigit) ∧ strToNat a ≤ 4294967295) ∨ (parseIPv4 a).isSome)

/-! ## VRF configuration builder (`build_vrf_config`) -/

/-- Input dictionary of `build_vrf_config`. -/
structure VrfParams where
  name : Str
  rd : Str
  rt_export_enabled : Bool := false
  rt_export_value : Option Str := none
  rt_import_enabled : Bool := false
  rt_import_value : Option Str := none
deriving DecidableEq, Inhabited

/-- Output dictionary of `build_vrf_config`; a disabled RT value is absent. -/
structure VrfConfig where
  name : Str
  rd : Str
  rt_export_enabled : Bool
  rt_import_enabled : Bool
  rt_export_value : Option Str := none
  rt_import_value : Option Str := none
deriving DecidableEq, Inhabited

/-- The function `build_vrf_config`: validates name and RD (and enabled RT
values, which pass through the RD validator with `None` read as falsy),
raising `ValueError` on the first failure. -/
def build_vrf_config (p : VrfParams) : Except Str VrfConfig :=
  match validate_vrf_name p.name with
  | (false, e) => .error ("Invalid VRF name: ".data ++ e.getD [])
  | (true, _) =>
    match validate_route_distinguisher p.rd with
    | (false, e) => .error ("Invalid Route Distinguisher: ".data ++ e.getD [])
    | (true, _) =>
      let base : VrfConfig :=
        { name := p.name, rd := p.rd,
          rt_export_enabled := p.rt_export_enabled,
          rt_import_enabled := p.rt_import_enabled }
      match
        (if p.rt_export_enabled then
          match validate_route_distinguisher (p.rt_export_value.getD []) with
          | (false, e) => .error ("Invalid RT Export: ".data ++ e.getD [])
          | (true, _) => .ok { base with rt_export_value := p.rt_export_value }
        else .ok base : Except Str VrfConfig)
      with
      | .error e => .error e
      | .ok c1 =>
        if p.rt_import_enabled then
          match validate_route_distinguisher (p.rt_import_value.getD []) with
          | (false, e) => .error ("Invalid RT Import: ".data ++ e.getD [])
          | (true, _) => .ok { c1 with rt_import_value := p.rt_import_value }
        else .ok c1

/-! ## iBGP builder (`build_ibgp_configs`) -/

/-- One fusion-router entry as supplied to the builders. -/
structure FusionRouterInput where
  router_id : Nat
  hostname : Str
  bgp_router_id : Str
  as_number : Str
deriving DecidableEq, Inhabited

/-- User-level iBGP parameters (`ibgp_params`). -/
structure IbgpParams where
  enabled : Bool
  bfd_enabled : Option Bool := none
  bfd_interval : Option Nat := none
  bfd_min_rx : Option Nat := none
  bfd_multiplier : Option Nat := none
deriving DecidableEq, Inhabited

/-- Per-router iBGP projection produced by `build_ibgp_configs`. -/
structure IbgpConfig where
  enabled : Bool
  router_id : Nat
  peering_type : Str
  peer_hostname : Str
  peer_ip : Str
  update_source : Str
  bfd_enabled : Bool
  bfd_interval : Nat
  bfd_min_rx : Nat
  bfd_multiplier : Nat
deriving DecidableEq, Inhabited

/-- The `ValueError` message raised on an AS mismatch, listing all values. -/
def ibgpMismatchMsg (asns : List Str) : Str :=
  "iBGP requires both fusion routers to use the same AS number. Found: ".data ++
    joinSep ", ".data asns

/-- The function `build_ibgp_configs`: empty result when disabled or fewer
than two routers; `ValueError` when the routers' AS numbers are not all
equal (`len(set(as_numbers)) > 1`); otherwise one loopback-based peering
projection per router, each naming the other router. -/
def build_ibgp_configs (fusion_routers : List FusionRouterInput)
    (ibgp_params : Option IbgpParams) : Except Str (List IbgpConfig) :=
  match ibgp_params with
  | none => .ok []
  | some p =>
    if !p.enabled || fusion_routers.length < 2 then .ok []
    else
      let as_numbers := fusion_routers.map (·.as_number)
      if as_numbers.dedup.length > 1 then .error (ibgpMismatchMsg as_numbers)
      else
        .ok (fusion_routers.enum.map (fun ir =>
          let peer := if ir.1 = 0 then fusion_routers.getD 1 default
                      else fusion_routers.getD 0 default
          { enabled := true
            router_id := ir.2.router_id
            peering_type := "loopback".data
            peer_hostname := peer.hostname
            peer_ip := peer.bgp_router_id
            update_source := "Loopback0".data
            bfd_enabled := p.bfd_enabled.getD true
            bfd_interval := p.bfd_interval.getD 250
            bfd_min_rx := p.bfd_min_rx.getD 250
            bfd_multiplier := p.bfd_multiplier.getD 3 }))

/-! ## Synthesis engine (`generate_fusion_router_config`) -/

/-- Parameters of one fusion router as passed to the synthesizer. -/
structure FusionRouterParams where
  router_id : Nat
  hostname : Str
  bgp_router_id : Str
  as_number : Str
deriving DecidableEq, Inhabited

/-- One handoff record.  `vrf_name` follows Python truthiness (an empty
string is "no VRF"); `allowed_vlans` is optional (`handoff.get`). -/
structure HandoffRec where
  border_hostname : Str
  border_vlan_id : Str
  fusion_router_id : Nat
  interface_mode : Str
  interface_name : Str := []
  vlan_id : Str := []
  subif_id : Str := []
  vrf_name : Str := []
  physical_interface : Str := []
  allowed_vlans : Option Str := none
deriving DecidableEq, Inhabited

/-- One emitted interface record (the per-mode dicts share this shape;
fields a mode does not set stay absent). -/
structure IfaceRec where
  typ : Str
  name : Option Str := none
  vlan_id : Option Str := none
  parent_interface : Option Str := none
  subif_id : Option Str := none
  encapsulation : Option Str := none
  ip_address : Str
  subnet_mask : Option Str
  description : Str
  vrf : Str
  bfd_enabled : Bool
  bfd_interval : Option Str
  bfd_min_rx : Option Str
  bfd_multiplier : Option Str
deriving DecidableEq

/-- One emitted physical trunk record (SVI mode). -/
structure PhysTrunk where
  name : Str
  description : Str
  allowed_vlans : Str
deriving DecidableEq

/-- One emitted VLAN definition (SVI mode). -/
structure VlanDef where
  id : Str
  name : Str
deriving DecidableEq

/-- One emitted BGP neighbor record. -/
structure NbrRec where
  ip : Str
  remote_as : Option Str
  source_interface : Str
  vrf : Str
  next_hop_self : Bool
deriving DecidableEq

/-- Accumulated synthesis state of the per-handoff loop.  `src_if` models
the Python local variable `source_interface`, which persists across loop
iterations and is unassigned (`none`) until some mode branch sets it. -/
structure GenAcc where
  interfaces : List IfaceRec
  physical : List PhysTrunk
  vlans : List VlanDef
  nbr_default : List NbrRec
  nbr_vrf : List (Str × List NbrRec)
  src_if : Option Str
deriving DecidableEq

/-- Initial synthesis state. -/
def initAcc : GenAcc := ⟨[], [], [], [], [], none⟩

/-- Exceptions the synthesizer can raise: a `ValueError` from VRF
validation, or the `NameError` from reading the unassigned
`source_interface` under an unknown interface mode. -/
inductive GenError where
  | vrfError (msg : Str)
  | nameError
deriving DecidableEq

/-- Result of the synthesizer: the "no handoffs" marker string or the
structured configuration model handed to the template renderer. -/
structure FusionModel where
  hostname : Str
  bgp_router_id : Str
  as_number : Str
  interface_mode : Str
  interfaces : List IfaceRec
  physical_interfaces : List PhysTrunk
  vlans : List VlanDef
  bgp_neighbors_default : List NbrRec
  bgp_neighbors_vrf : List (Str × List NbrRec)
  vrf_definitions : List VrfConfig
  ibgp_config : Option IbgpConfig
deriving DecidableEq

/-- Output of `generate_fusion_router_config` (the render-only timestamp
and OSPF pass-throughs are outside the modeled core). -/
inductive GenOutput where
  | noHandoffs (hostname : Str)
  | config (m : FusionModel)
deriving DecidableEq

/-- Append a neighbor into its VRF bucket
(`bgp_neighbors_vrf[vrf].append`, registering a new key at the end). -/
def addToBucket : List (Str × List NbrRec) → Str → NbrRec → List (Str × List NbrRec)
  | [], k, v => [(k, [v])]
  | (k', vs) :: rest, k, v =>
    if k' = k then (k', vs ++ [v]) :: rest else (k', vs) :: addToBucket rest k v

/-- Resolution test for one handoff: border node found by exact hostname,
VLAN found by string-compared id, and the /30 peer address defined. -/
def resolvable (bns : List BorderModel) (h : HandoffRec) : Bool :=
  match bns.find? (fun bn => bn.hostname = some h.border_hostname) with
  | none => false
  | some bn =>
    match bn.vlan_interfaces.find? (fun v => v.vlan = h.border_vlan_id) with
    | none => false
    | some vi =>
      match vi.ip_address with
      | none => false
      | some bip => (calculate_fusion_router_ip bip).isSome

/-- One iteration of the per-handoff loop of `generate_fusion_router_config`:
resolve the border node, the VLAN and the peer address (skipping silently on
failure), emit the mode-specific interface records, then build the BGP
neighbor record from `source_interface` (raising if it was never assigned). -/
def handoffStep (bns : List BorderModel) (mode : Str) (ibgpE : Bool)
    (acc : GenAcc) (h : HandoffRec) : Except GenError GenAcc :=
  match bns.find? (fun bn => bn.hostname = some h.border_hostname) with
  | none => .ok acc
  | some bn =>
    match bn.vlan_interfaces.find? (fun v => v.vlan = h.border_vlan_id) with
    | none => .ok acc
    | some vi =>
      match vi.ip_address with
      | none => .ok acc
      | some bip =>
        match calculate_fusion_router_ip bip with
        | none => .ok acc
        | some fusion_ip =>
          let acc1 : GenAcc :=
            if mode = "routed".data then
              { acc with
                interfaces := acc.interfaces ++
                  [{ typ := "routed".data
                     name := some h.interface_name
                     ip_address := fusion_ip
                     subnet_mask := vi.subnet_mask
                     description := "Handoff to ".data ++ h.border_hostname ++
                       " VLAN".data ++ h.border_vlan_id
                     vrf := h.vrf_name
                     bfd_enabled := vi.bfd_enabled
                     bfd_interval := vi.bfd_interval
                     bfd_min_rx := vi.bfd_min_rx
                     bfd_multiplier := vi.bfd_multiplier }]
                src_if := some h.interface_name }
            else if mode = "svi".data then
              let physRec : PhysTrunk :=
                { name := h.physical_interface
                  description := "Physical link to ".data ++ h.border_hostname
                  allowed_vlans := h.allowed_vlans.getD h.vlan_id }
              { acc with
                vlans := acc.vlans ++
                  [{ id := h.vlan_id, name := "HANDOFF_".data ++ h.border_vlan_id }]
                physical :=
                  if acc.physical.any (fun p => p.name = physRec.name) then acc.physical
                  else acc.physical ++ [physRec]
                interfaces := acc.interfaces ++
                  [{ typ := "svi".data
                     vlan_id := some h.vlan_id
                     ip_address := fusion_ip
                     subnet_mask := vi.subnet_mask
                     description := "L3 Handoff to ".data ++ h.border_hostname ++
                       " VLAN".data ++ h.border_vlan_id
                     vrf := h.vrf_name
                     bfd_enabled := vi.bfd_enabled
                     bfd_interval := vi.bfd_interval
                     bfd_min_rx := vi.bfd_min_rx
                     bfd_multiplier := vi.bfd_multiplier }]
                src_if := some ("Vlan".data ++ h.vlan_id) }
            else if mode = "subinterface".data then
              { acc with
                interfaces := acc.interfaces ++
                  [{ typ := "subinterface".data
                     parent_interface := some h.interface_name
                     subif_id := some h.subif_id
                     encapsulation := "dot1Q ".data ++ h.subif_id
                     ip_address := fusion_ip
                     subnet_mask := vi.subnet_mask
                     description := "Subif to ".data ++ h.border_hostname ++
                       " VLAN".data ++ h.border_vlan_id
                     vrf := h.vrf_name
                     bfd_enabled := vi.bfd_enabled
                     bfd_interval := vi.bfd_interval
                     bfd_min_rx := vi.bfd_min_rx
                     bfd_multiplier := vi.bfd_multiplier }]
                src_if := some (h.interface_name ++ '.' :: h.subif_id) }
            else acc
          match acc1.src_if with
          | none => .error .nameError
          | some si =>
            let nbr : NbrRec :=
              { ip := bip
                remote_as := bn.bgp.as_number
                source_interface := si
                vrf := h.vrf_name
                next_hop_self := ibgpE }
            if !h.vrf_name.isEmpty then
              .ok { acc1 with nbr_vrf := addToBucket acc1.nbr_vrf h.vrf_name nbr }
            else
              .ok { acc1 with nbr_default := acc1.nbr_default ++ [nbr] }

/-- The per-handoff loop, with Python exception propagation. -/
def processHandoffs (bns : List BorderModel) (mode : Str) (ibgpE : Bool) :
    GenAcc → List HandoffRec → Except GenError GenAcc
  | acc, [] => .ok acc
  | acc, h :: t =>
    match handoffStep bns mode ibgpE acc h with
    | .error e => .error e
    | .ok acc1 => processHandoffs bns mode ibgpE acc1 t

/-- The function `generate_fusion_router_config`: select this router's
handoffs (returning the "no handoffs" marker when none), take the interface
mode from the first selected handoff, validate every VRF spec, run the
per-handoff loop, and assemble the model. -/
def generate_fusion_router_config (params : FusionRouterParams)
    (border_nodes : List BorderModel) (handoffs : List HandoffRec)
    (vrf_configs : List VrfParams) (ibgp_config : Option IbgpConfig) :
    Except GenError GenOutput :=
  match handoffs.filter (fun h => h.fusion_router_id = params.router_id) with
  | [] => .ok (.noHandoffs params.hostname)
  | h0 :: rest =>
    let interface_mode := h0.interface_mode
    match vrf_configs.mapM build_vrf_config with
    | .error m => .error (.vrfError m)
    | .ok vrf_definitions =>
      let ibgpE := match ibgp_config with | some c => c.enabled | none => false
      match processHandoffs border_nodes interface_mode ibgpE initAcc (h0 :: rest) with
      | .error e => .error e
      | .ok acc =>
        .ok (.config
          { hostname := params.hostname
            bgp_router_id := params.bgp_router_id
            as_number := params.as_number
            interface_mode := interface_mode
            interfaces := acc.interfaces
            physical_interfaces := acc.physical
            vlans := acc.vlans
            bgp_neighbors_default := acc.nbr_default
            bgp_neighbors_vrf := acc.nbr_vrf
            vrf_definitions := vrf_definitions
            ibgp_config := ibgp_config })

/-! ## Helper lemmas on the string primitives -/

theorem splitOnChar_ne_nil (c : Char) (s : Str) : splitOnChar c s ≠ [] := by
  induction s with
  | nil => simp [splitOnChar]
  | cons x xs ih =>
    simp only [splitOnChar]
    split
    · simp
    · cases h : splitOnChar c xs <;> simp

theorem splitOnChar_eq_single {c : Char} {s : Str} (h : c ∉ s) :
    splitOnChar c s = [s] := by
  induction s with
  | nil => rfl
  | cons x xs ih =>
    have hx : ¬x = c := fun e => h (e ▸ List.mem_cons_self x xs)
    have hxs : c ∉ xs := fun m => h (List.mem_cons_of_mem _ m)
    simp only [splitOnChar, if_neg hx, ih hxs]

theorem splitOnChar_first {c : Char} {a s : Str} (h : c ∉ a) :
    splitOnChar c (a ++ c :: s) = a :: splitOnChar c s := by
  induction a with
  | nil => simp [splitOnChar]
  | cons x xs ih =>
    have hx : ¬x = c := fun e => h (e ▸ List.mem_cons_self x xs)
    have hxs : c ∉ xs := fun m => h (List.mem_cons_of_mem _ m)
    simp only [List.cons_append, splitOnChar, List.append_eq, if_neg hx, ih hxs]

theorem joinChar_splitOnChar (c : Char) (s : Str) :
    joinChar c (splitOnChar c s) = s := by
  induction s with
  | nil => rfl
  | cons x xs ih =>
    simp only [splitOnChar]
    split
    · rename_i hx
      cases hsp : splitOnChar c xs with
      | nil => exact absurd hsp (splitOnChar_ne_nil c xs)
      | cons a as =>
        rw [hsp] at ih
        subst hx
        cases as <;> simp_all [joinChar]
    · rename_i hx
      cases hsp : splitOnChar c xs with
      | nil => exact absurd hsp (splitOnChar_ne_nil c xs)
      | cons a as =>
        rw [hsp] at ih
        cases as <;> simp_all [joinChar]

theorem not_mem_of_mem_splitOnChar {c : Char} {s l : Str}
    (hl : l ∈ splitOnChar c s) : c ∉ l := by
  induction s generalizing l with
  | nil => simp [splitOnChar] at hl; simp [hl]
  | cons x xs ih =>
    simp only [splitOnChar] at hl
    split at hl
    · rcases List.mem_cons.mp hl with h | h
      · simp [h]
      · exact ih h
    · rename_i hx
      cases hsp : splitOnChar c xs with
      | nil => exact absurd hsp (splitOnChar_ne_nil c xs)
      | cons a as =>
        rw [hsp] at hl
        rcases List.mem_cons.mp hl with h | h
        · subst h
          intro hmem
          rcases List.mem_cons.mp hmem with h' | h'
          · exact hx h'.symm
          · exact ih (hsp ▸ List.mem_cons_self a as) h'
        · exact ih (hsp ▸ List.mem_cons_of_mem a h)

theorem splitOnChar_pair_iff {c : Char} {s a n : Str} :
    splitOnChar c s = [a, n] ↔ s = a ++ c :: n ∧ c ∉ a ∧ c ∉ n := by
  constructor
  · intro h
    refine ⟨?_, ?_, ?_⟩
    · have := joinChar_splitOnChar c s
      rw [h] at this
      simpa [joinChar] using this.symm
    · exact not_mem_of_mem_splitOnChar (h ▸ List.mem_cons_self a [n])
    · exact not_mem_of_mem_splitOnChar
        (h ▸ List.mem_cons_of_mem a (List.mem_cons_self n []))
  · rintro ⟨rfl, ha, hn⟩
    rw [splitOnChar_first ha, splitOnChar_eq_single hn]

theorem splitOnceChar_not_mem {c : Char} {s : Str} (h : c ∉ s) :
    splitOnceChar c s = none := by
  induction s with
  | nil => rfl
  | cons x xs ih =>
    have hx : ¬x = c := fun e => h (e ▸ List.mem_cons_self x xs)
    have hxs : c ∉ xs := fun m => h (List.mem_cons_of_mem _ m)
    simp [splitOnceChar, if_neg hx, ih hxs]

theorem splitOnceChar_of_prefix {c : Char} {p s : Str} (h : c ∉ p) :
    splitOnceChar c (p ++ c :: s) = some (p, s) := by
  induction p with
  | nil => simp [splitOnceChar]
  | cons x xs ih =>
    have hx : ¬x = c := fun e => h (e ▸ List.mem_cons_self x xs)
    have hxs : c ∉ xs := fun m => h (List.mem_cons_of_mem _ m)
    simp [splitOnceChar, if_neg hx, ih hxs]

theorem digitChar_isDigit (n : Nat) : (digitChar n).isDigit = true := by
  unfold digitChar
  repeat' split
  all_goals decide

theorem natReprAux_digits :
    ∀ fuel n acc, (∀ ch ∈ acc, ch.isDigit = true) →
      ∀ ch ∈ natReprAux fuel n acc, ch.isDigit = true := by
  intro fuel
  induction fuel with
  | zero => intro n acc hacc ch hch; exact hacc ch hch
  | succ f ih =>
    intro n acc hacc ch hch
    unfold natReprAux at hch
    split at hch
    · rcases List.mem_cons.mp hch with h | h
      · exact h ▸ digitChar_isDigit n
      · exact hacc ch h
    · refine ih (n / 10) (digitChar (n % 10) :: acc) ?_ ch hch
      intro d hd
      rcases List.mem_cons.mp hd with h | h
      · exact h ▸ digitChar_isDigit (n % 10)
      · exact hacc d h

theorem natRepr_digits (n : Nat) : ∀ ch ∈ natRepr n, ch.isDigit = true :=
  natReprAux_digits (n + 1) n [] (by simp)

theorem bar_not_mem_natRepr (n : Nat) : '|' ∉ natRepr n := by
  intro h
  have := natRepr_digits n _ h
  simp at this

/-! ## Round-trip of the dotted-quad text representation -/

theorem octet_roundtrip :
    ∀ n : Nat, n < 256 → parseOctet (natDigits n) = some n ∧ '.' ∉ natDigits n := by
  decide

theorem parseIPv4_ipToString {v : Nat} (hv : v < 4294967296) :
    parseIPv4 (ipToString v) = some v := by
  have h1 : v / 16777216 % 256 < 256 := Nat.mod_lt _ (by norm_num)
  have h2 : v / 65536 % 256 < 256 := Nat.mod_lt _ (by norm_num)
  have h3 : v / 256 % 256 < 256 := Nat.mod_lt _ (by norm_num)
  have h4 : v % 256 < 256 := Nat.mod_lt _ (by norm_num)
  obtain ⟨p1, d1⟩ := octet_roundtrip _ h1
  obtain ⟨p2, d2⟩ := octet_roundtrip _ h2
  obtain ⟨p3, d3⟩ := octet_roundtrip _ h3
  obtain ⟨p4, d4⟩ := octet_roundtrip _ h4
  have hjoin : ipToString v =
      natDigits (v / 16777216 % 256) ++ '.' ::
        (natDigits (v / 65536 % 256) ++ '.' ::
          (natDigits (v / 256 % 256) ++ '.' :: natDigits (v % 256))) := by
    simp [ipToString, joinChar]
  rw [parseIPv4, hjoin, splitOnChar_first d1, splitOnChar_first d2,
    splitOnChar_first d3, splitOnChar_eq_single d4]
  simp only [List.mapM_cons, List.mapM_nil, p1, p2, p3, p4, Option.pure_def,
    Option.bind_eq_bind, Option.bind_some, Option.some_bind]
  have : ((v / 16777216 % 256 * 256 + v / 65536 % 256) * 256 + v / 256 % 256) * 256 +
      v % 256 = v := by omega
  simp [this]

theorem ipToString_inj {a b : Nat} (ha : a < 4294967296) (hb : b < 4294967296)
    (h : ipToString a = ipToString b) : a = b := by
  have hha := parseIPv4_ipToString ha
  rw [h, parseIPv4_ipToString hb] at hha
  exact (Option.some.injEq _ _ ▸ hha).symm

theorem calculate_ipToString {v : Nat} (hv : v < 4294967296) :
    calculate_fusion_router_ip (ipToString v) =
      (if v % 4 = 1 then some (ipToString (v + 1))
       else if v % 4 = 2 then some (ipToString (v - 1)) else none) := by
  have hmod : v % 4 < 4 := Nat.mod_lt _ (by norm_num)
  have hb1 : v - v % 4 + 1 < 4294967296 := by omega
  have hb2 : v - v % 4 + 2 < 4294967296 := by omega
  rw [calculate_fusion_router_ip, parseIPv4_ipToString hv]
  simp only [List.length_cons, List.length_nil]
  rw [if_neg (by norm_num)]
  by_cases h1 : v - v % 4 + 1 = v
  · rw [if_pos (by rw [h1]), if_pos (by omega)]
    have : v - v % 4 + 2 = v + 1 := by omega
    rw [this]
  · rw [if_neg (fun he => h1 (ipToString_inj hb1 hv he))]
    by_cases h2 : v - v % 4 + 2 = v
    · rw [if_pos (by rw [h2]), if_neg (by omega), if_pos (by omega)]
      have : v - v % 4 + 1 = v - 1 := by omega
      rw [this]
    · rw [if_neg (fun he => h2 (ipToString_inj hb2 hv he)),
        if_neg (by omega), if_neg (by omega)]

/-- C1: for every IPv4 address that is one of the two usable hosts of its
/30, `calculate_fusion_router_ip` returns the other usable host and is an
involution on the pair; for the network address, the broadcast address, or
a string that does not parse as an address, the result is absent.  The
embedded function is total, so it never raises. -/
theorem c1_peer_of_involution :
    ∀ v : Nat, v < 4294967296 →
      ((v % 4 = 1 ∨ v % 4 = 2) →
        calculate_fusion_router_ip (ipToString v) = some (ipToString (fusionPeerVal v)) ∧
        calculate_fusion_router_ip (ipToString (fusionPeerVal v)) = some (ipToString v) ∧
        fusionPeerVal (fusionPeerVal v) = v) ∧
      ((v % 4 = 0 ∨ v % 4 = 3) → calculate_fusion_router_ip (ipToString v) = none) ∧
      (∀ s : Str, parseIPv4 s = none → calculate_fusion_router_ip s = none) := by
  intro v hv
  refine ⟨?_, ?_, ?_⟩
  · rintro (h | h)
    · have hpv : fusionPeerVal v = v + 1 := by rw [fusionPeerVal, if_pos h]
      have hv1 : v + 1 < 4294967296 := by omega
      have hm1 : (v + 1) % 4 = 2 := by omega
      refine ⟨?_, ?_, ?_⟩
      · rw [calculate_ipToString hv, if_pos h, hpv]
      · rw [hpv, calculate_ipToString hv1, if_neg (by omega), if_pos hm1]
        simp
      · rw [hpv, fusionPeerVal, if_neg (show ¬(v + 1) % 4 = 1 by omega)]
        omega
    · have hpv : fusionPeerVal v = v - 1 := by rw [fusionPeerVal, if_neg (by omega)]
      have hv1 : v - 1 < 4294967296 := by omega
      have hm1 : (v - 1) % 4 = 1 := by omega
      refine ⟨?_, ?_, ?_⟩
      · rw [calculate_ipToString hv, if_neg (by omega), if_pos h, hpv]
      · rw [hpv, calculate_ipToString hv1, if_pos hm1]
        have : v - 1 + 1 = v := by omega
        rw [this]
      · rw [hpv, fusionPeerVal, if_pos hm1]
        omega
  · intro h
    rw [calculate_ipToString hv, if_neg (by omega), if_neg (by omega)]
  · intro s hs
    rw [calculate_fusion_router_ip, hs]

/-- Witness for C1 at the /30 `0.0.0.0/30`, its network and broadcast
addresses, and a malformed string. -/
theorem c1_peer_of_involution_witness :
    calculate_fusion_router_ip (ipToString 1) = some (ipToString (fusionPeerVal 1)) ∧
    calculate_fusion_router_ip (ipToString 4) = none ∧
    calculate_fusion_router_ip "not-an-ip".data = none :=
  ⟨((c1_peer_of_involution 1 (by norm_num)).1 (Or.inl (by decide))).1,
   (c1_peer_of_involution 4 (by norm_num)).2.1 (Or.inl (by decide)),
   (c1_peer_of_involution 0 (by norm_num)).2.2 _ (by decide)⟩

/-! ## C4: the /30 filter invariant of the parsed VLAN list -/

/-- C4: every VLAN interface in a parsed model has subnet mask exactly
`255.255.255.252` and a present ip address; the retained records form a
sublist (hence preserve the relative order) of the records accumulated by
the scan before filtering. -/
theorem c4_vlan_filter :
    ∀ raw : List Str,
      (∀ v ∈ (parseConfig raw).vlan_interfaces,
        v.subnet_mask = some "255.255.255.252".data ∧ v.ip_address ≠ none) ∧
      (parseConfig raw).vlan_interfaces.Sublist (rawVlans (cleanLines raw)) := by
  intro raw
  have hmodel : (parseConfig raw).vlan_interfaces =
      (rawVlans (cleanLines raw)).filter vlanKeep := rfl
  constructor
  · intro v hv
    rw [hmodel] at hv
    have hkeep : vlanKeep v = true := List.of_mem_filter hv
    simp only [vlanKeep, Bool.and_eq_true, decide_eq_true_eq] at hkeep
    refine ⟨hkeep.2, ?_⟩
    intro hnone
    rw [hnone] at hkeep
    simp [truthyS] at hkeep
  · rw [hmodel]
    exact List.filter_sublist _

/-- Witness for C4 on a two-line configuration carrying one /30 VLAN. -/
theorem c4_vlan_filter_witness :
    (⟨"3704".data, some "10.1.1.1".data, some "255.255.255.252".data, none, none,
        false, none, none, none⟩ : VlanRec).subnet_mask =
      some "255.255.255.252".data ∧
    (⟨"3704".data, some "10.1.1.1".data, some "255.255.255.252".data, none, none,
        false, none, none, none⟩ : VlanRec).ip_address ≠ none :=
  (c4_vlan_filter ["interface Vlan3704".data,
      " ip address 10.1.1.1 255.255.255.252".data]).1 _ (by decide)

/-! ## C5: the gutter-stripping invariant -/

theorem stripGutter_id {l : Str} (h : '|' ∉ l) : stripGutter l = l := by
  rw [stripGutter, splitOnceChar_not_mem h]

theorem stripGutter_gutted (n : Nat) (l : Str) :
    stripGutter (natRepr n ++ ' ' :: '|' :: l) = l := by
  have hbar : '|' ∉ natRepr n ++ [' '] := by
    intro hm
    rcases List.mem_append.mp hm with h | h
    · exact bar_not_mem_natRepr n h
    · simp at h
  have hshape : natRepr n ++ ' ' :: '|' :: l = (natRepr n ++ [' ']) ++ '|' :: l := by
    simp
  rw [hshape, stripGutter, splitOnceChar_of_prefix hbar]

theorem map_stripGutter_id :
    ∀ raw : List Str, (∀ l ∈ raw, '|' ∉ l) → List.map stripGutter raw = raw
  | [], _ => rfl
  | l :: ls, h => by
    simp only [List.map_cons]
    rw [stripGutter_id (h l (List.mem_cons_self _ _)),
      map_stripGutter_id ls (fun x m => h x (List.mem_cons_of_mem _ m))]

theorem map_stripGutter_gutted :
    ∀ (ns : List Nat) (raw : List Str), ns.length = raw.length →
      List.map stripGutter
        (List.zipWith (fun n l => natRepr n ++ ' ' :: '|' :: l) ns raw) = raw
  | [], [], _ => rfl
  | [], _ :: _, h => by simp at h
  | _ :: _, [], h => by simp at h
  | n :: ns, l :: ls, h => by
    simp only [List.zipWith_cons_cons, List.map_cons]
    rw [stripGutter_gutted, map_stripGutter_gutted ns ls (by simpa using h)]

/-- C5: for a text none of whose lines contains `|`, inserting a
`<number> |` gutter prefix on every line leaves the parsed model
unchanged. -/
theorem c5_gutter_invariant :
    ∀ (raw : List Str) (ns : List Nat), ns.length = raw.length →
      (∀ l ∈ raw, '|' ∉ l) →
      parseConfig (List.zipWith (fun n l => natRepr n ++ ' ' :: '|' :: l) ns raw) =
        parseConfig raw := by
  intro raw ns hlen hbar
  have h1 : cleanLines (List.zipWith (fun n l => natRepr n ++ ' ' :: '|' :: l) ns raw)
      = raw := map_stripGutter_gutted ns raw hlen
  have h2 : cleanLines raw = raw := map_stripGutter_id raw hbar
  rw [parseConfig, parseConfig, h1, h2]

/-- Witness for C5 on a small configuration with gutter numbers 3 and 17. -/
theorem c5_gutter_invariant_witness :
    parseConfig (List.zipWith (fun n l => natRepr n ++ ' ' :: '|' :: l) [3, 17]
        ["hostname R1".data, "interface Vlan10".data]) =
      parseConfig ["hostname R1".data, "interface Vlan10".data] :=
  c5_gutter_invariant ["hostname R1".data, "interface Vlan10".data] [3, 17]
    (by decide) (by decide)

/-! ## C3: parser totality and the caller's failure test -/

theorem get_hostname_eq_find (lines : List Str) :
    get_hostname lines =
      (lines.find? (fun l => startsWith "hostname ".data l)).map hostnameExtract := by
  induction lines with
  | nil => rfl
  | cons l ls ih =>
    by_cases h : startsWith "hostname ".data l = true
    · simp [get_hostname, List.find?_cons_of_pos, h]
    · have h' : startsWith "hostname ".data l = false := by simpa using h
      simp [get_hostname, List.find?_cons_of_neg, h', ih]

/-- Counterexample to C3 as stated: the input whose single line is
`hostname ` (empty hostname after the keyword) contains a line starting
with `hostname `, yet the caller treats the parse as failed, because the
extracted hostname is the empty string and Python's `if not hostname`
treats `''` like `None`. -/
theorem c3_counterexample :
    callerRejects ["hostname ".data] = true ∧
    (cleanLines ["hostname ".data]).any (fun l => startsWith "hostname ".data l) = true := by
  decide

/-- C3 (amended): `parse` is total by construction, and the caller treats
the parse as failed iff the first line starting with `hostname ` (after
gutter stripping) yields an empty extracted hostname — in particular iff
no such line exists at all. -/
theorem c3_amended :
    ∀ raw : List Str,
      callerRejects raw = true ↔
        ∀ l, (cleanLines raw).find? (fun l => startsWith "hostname ".data l) = some l →
          hostnameExtract l = [] := by
  intro raw
  have hmodel : (parseConfig raw).hostname =
      ((cleanLines raw).find? (fun l => startsWith "hostname ".data l)).map
        hostnameExtract := get_hostname_eq_find (cleanLines raw)
  rw [callerRejects, hmodel]
  cases hf : (cleanLines raw).find? (fun l => startsWith "hostname ".data l) with
  | none => simp
  | some l0 =>
    constructor
    · intro h l hl
      cases hl
      simpa using h
    · intro h
      simpa using h l0 rfl

/-- Witness for C3 (amended): a line with a real hostname is accepted. -/
theorem c3_amended_witness : callerRejects ["hostname R1".data] = false := by
  cases hc : callerRejects ["hostname R1".data]
  · rfl
  · exact absurd ((c3_amended ["hostname R1".data]).mp hc "hostname R1".data (by decide))
      (by decide)

/-! ## C2: the default-VRF gating rule -/

/-- Input of the C2 counterexample: the second neighbor line is textually
identical to the first, so the gate's `lines.index(line)` lookup resolves
to index 1, before the default `address-family ipv4` line at index 2. -/
def c2exLines : List Str :=
  ["router bgp 65000".data,
   " neighbor 10.0.0.1 remote-as 1".data,
   " address-family ipv4".data,
   " neighbor 10.0.0.1 remote-as 1".data]

/-- Counterexample to C2 as stated: in `c2exLines` the neighbor line at
index 3 is encountered inside the BGP stanza outside any VRF context and a
default `address-family ipv4` line precedes it (index 2), yet
`default_vrf_neighbors` stays empty, because the gate checks the prefix
before the FIRST occurrence of the identical line text (index 1). -/
theorem c2_counterexample :
    (get_bgp_config c2exLines).default_vrf_neighbors = [] ∧
    isDefaultAf (c2exLines.getD 2 []) = true ∧
    2 < 3 ∧
    matchNeighbor (c2exLines.getD 3 []) = some ⟨"10.0.0.1".data, "1".data⟩ ∧
    ((c2exLines.take 3).foldl (bgpStep c2exLines) ⟨⟨none, [], []⟩, false, none⟩).in_bgp
      = true ∧
    truthyS ((c2exLines.take 3).foldl (bgpStep c2exLines)
      ⟨⟨none, [], []⟩, false, none⟩).current_vrf = false := by
  decide

/-- C2 (amended): a neighbor line encountered inside the BGP stanza outside
any truthy VRF context is appended to `default_vrf_neighbors` iff a line
containing `address-family ipv4` and not containing `vrf` occurs in the
file before the first occurrence of a line textually identical to the
neighbor line (the `lines.index(line)` lookup); with duplicate neighbor
lines this can be strictly earlier than the line being processed. -/
theorem c2_amended :
    ∀ (allLines : List Str) (st : BgpScan) (line : Str) (nbr : BgpNeighbor),
      startsWith "router bgp ".data line = false →
      st.in_bgp = true →
      startsWith "!".data line = false →
      startsWith "address-family ipv4 vrf ".data (strip line) = false →
      startsWith "exit-address-family".data (strip line) = false →
      startsWith "neighbor ".data (strip line) = true →
      matchNeighbor line = some nbr →
      truthyS st.current_vrf = false →
      ((bgpStep allLines st line).cfg.default_vrf_neighbors =
          st.cfg.default_vrf_neighbors ++ [nbr] ↔
        ∃ l ∈ allLines.take (allLines.indexOf line), isDefaultAf l = true) := by
  intro allLines st line nbr h1 h2 h3 h4 h5 h6 h7 h8
  rw [bgpStep]
  simp only [h1, h2, h3, h4, h5, h6, h7, h8, Bool.false_eq_true, if_false, if_true]
  rw [bgpDefaultPath]
  by_cases hg : (allLines.take (allLines.indexOf line)).any isDefaultAf = true
  · rw [if_pos hg]
    simp only [true_iff]
    exact List.any_eq_true.mp hg
  · have hg' : (allLines.take (allLines.indexOf line)).any isDefaultAf = false := by
      simpa using hg
    rw [if_neg (by simp [hg'])]
    constructor
    · intro habs
      exact absurd (congrArg List.length habs) (by simp)
    · intro hex
      exact absurd (List.any_eq_true.mpr hex) (by simp [hg'])

/-- Witness for C2 (amended): with a default address-family line before the
(unique) neighbor line, the neighbor is appended. -/
theorem c2_amended_witness :
    (bgpStep [" address-family ipv4".data, " neighbor 10.0.0.1 remote-as 65001".data]
        ⟨⟨some "65000".data, [], []⟩, true, none⟩
        " neighbor 10.0.0.1 remote-as 65001".data).cfg.default_vrf_neighbors =
      [] ++ [⟨"10.0.0.1".data, "65001".data⟩] :=
  (c2_amended [" address-family ipv4".data, " neighbor 10.0.0.1 remote-as 65001".data]
      ⟨⟨some "65000".data, [], []⟩, true, none⟩
      " neighbor 10.0.0.1 remote-as 65001".data ⟨"10.0.0.1".data, "65001".data⟩
      (by decide) rfl (by decide) (by decide) (by decide) (by decide) (by decide)
      rfl).mpr ⟨" address-family ipv4".data, by decide, by decide⟩

/-! ## C6, C9, C10: behaviour of the synthesis loop -/

theorem handoffStep_skip {bns : List BorderModel} {mode : Str} {ibgpE : Bool}
    {acc : GenAcc} {h : HandoffRec} (hres : resolvable bns h = false) :
    handoffStep bns mode ibgpE acc h = .ok acc := by
  rw [handoffStep]
  split
  · rfl
  · rename_i bn hbn
    split
    · rfl
    · rename_i vi hvl
      split
      · rfl
      · rename_i bip hip
        split
        · rfl
        · rename_i fip hc
          rw [resolvable] at hres
          simp only [hbn, hvl, hip, hc] at hres
          simp at hres

/-- C6: the per-handoff loop of `generate_fusion_router_config` behaves,
from any starting state, exactly as if every unresolvable handoff (border
node not found, VLAN not found, or peer address undefined) had been removed
from its input: such handoffs emit no interface and no neighbor, raise
nothing, and leave the processing of all other handoffs unchanged. -/
theorem c6_silent_skip :
    ∀ (bns : List BorderModel) (mode : Str) (ibgpE : Bool) (acc : GenAcc)
      (hs : List HandoffRec),
      processHandoffs bns mode ibgpE acc hs =
        processHandoffs bns mode ibgpE acc (hs.filter (resolvable bns)) := by
  intro bns mode ibgpE acc hs
  induction hs generalizing acc with
  | nil => rfl
  | cons h t ih =>
    by_cases hr : resolvable bns h = true
    · rw [List.filter_cons_of_pos hr]
      rw [processHandoffs, processHandoffs]
      cases hstep : handoffStep bns mode ibgpE acc h with
      | error e => rfl
      | ok acc1 => exact ih acc1
    · have hr' : resolvable bns h = false := by simpa using hr
      rw [List.filter_cons_of_neg (by simp [hr'])]
      rw [processHandoffs, handoffStep_skip hr']
      exact ih acc

theorem handoffStep_unknown_mode {bns : List BorderModel} {mode : Str}
    {ibgpE : Bool} {acc : GenAcc} {h : HandoffRec}
    (hm1 : mode ≠ "routed".data) (hm2 : mode ≠ "svi".data)
    (hm3 : mode ≠ "subinterface".data) (hsrc : acc.src_if = none)
    (hres : resolvable bns h = true) :
    handoffStep bns mode ibgpE acc h = .error .nameError := by
  rw [handoffStep]
  split
  · rename_i hbn
    rw [resolvable] at hres
    simp only [hbn] at hres
    simp at hres
  · rename_i bn hbn
    split
    · rename_i hvl
      rw [resolvable] at hres
      simp only [hbn, hvl] at hres
      simp at hres
    · rename_i vi hvl
      split
      · rename_i hip
        rw [resolvable] at hres
        simp only [hbn, hvl, hip] at hres
        simp at hres
      · rename_i bip hip
        split
        · rename_i hc
          rw [resolvable] at hres
          simp only [hbn, hvl, hip, hc, Option.isSome_none] at hres
          simp at hres
        · rename_i fip hc
          simp only [if_neg hm1, if_neg hm2, if_neg hm3, hsrc]

theorem processHandoffs_unknown_mode {bns : List BorderModel} {mode : Str}
    {ibgpE : Bool} (hm1 : mode ≠ "routed".data) (hm2 : mode ≠ "svi".data)
    (hm3 : mode ≠ "subinterface".data) :
    ∀ (hs : List HandoffRec) (acc : GenAcc), acc.src_if = none →
      (∃ h ∈ hs, resolvable bns h = true) →
      processHandoffs bns mode ibgpE acc hs = .error .nameError := by
  intro hs
  induction hs with
  | nil => intro acc _ hex; simp at hex
  | cons h t ih =>
    intro acc hsrc hex
    by_cases hr : resolvable bns h = true
    · rw [processHandoffs, handoffStep_unknown_mode hm1 hm2 hm3 hsrc hr]
    · have hr' : resolvable bns h = false := by simpa using hr
      rw [processHandoffs, handoffStep_skip hr']
      refine ih acc hsrc ?_
      rcases hex with ⟨h', hmem, hres'⟩
      rcases List.mem_cons.mp hmem with rfl | hmem'
      · exact absurd hres' hr
      · exact ⟨h', hmem', hres'⟩

/-- C9: when the first selected handoff carries an interface mode outside
`routed`/`svi`/`subinterface` and at least one selected handoff resolves,
`generate_fusion_router_config` raises instead of returning a model (the
`NameError` from the unassigned `source_interface`, or the VRF
`ValueError` if a VRF spec is also invalid): synthesis is not total over
`interface_mode`. -/
theorem c9_unknown_mode_raises :
    ∀ (params : FusionRouterParams) (bns : List BorderModel)
      (handoffs : List HandoffRec) (vrfs : List VrfParams)
      (ibgp : Option IbgpConfig) (h0 : HandoffRec) (t : List HandoffRec),
      handoffs.filter (fun h => h.fusion_router_id = params.router_id) = h0 :: t →
      h0.interface_mode ≠ "routed".data →
      h0.interface_mode ≠ "svi".data →
      h0.interface_mode ≠ "subinterface".data →
      (∃ h ∈ h0 :: t, resolvable bns h = true) →
      ∃ e, generate_fusion_router_config params bns handoffs vrfs ibgp = .error e := by
  intro params bns handoffs vrfs ibgp h0 t hfil hm1 hm2 hm3 hex
  unfold generate_fusion_router_config
  rw [hfil]
  cases hv : vrfs.mapM build_vrf_config with
  | error m => exact ⟨.vrfError m, rfl⟩
  | ok defs =>
    refine ⟨.nameError, ?_⟩
    simp only [hv]
    rw [processHandoffs_unknown_mode hm1 hm2 hm3 (h0 :: t) initAcc rfl hex]

/-- Witness for C9: a single resolvable handoff in mode `weird` makes the
synthesizer fail. -/
theorem c9_unknown_mode_raises_witness :
    ∃ e, generate_fusion_router_config ⟨1, "fr1".data, "10.0.0.1".data, "65000".data⟩
      [{ hostname := some "bn-01".data
         loopback0_ip := none
         bgp := ⟨some "65001".data, [], []⟩
         vlan_interfaces := [{ vlan := "3704".data, ip_address := some "10.1.1.1".data, subnet_mask := some "255.255.255.252".data }]
         physical_interfaces := [] }]
      [{ border_hostname := "bn-01".data, border_vlan_id := "3704".data,
         fusion_router_id := 1, interface_mode := "weird".data }]
      [] none = .error e :=
  c9_unknown_mode_raises _ _ _ _ _
    { border_hostname := "bn-01".data, border_vlan_id := "3704".data,
      fusion_router_id := 1, interface_mode := "weird".data } []
    (by decide) (by decide) (by decide) (by decide)
    ⟨{ border_hostname := "bn-01".data, border_vlan_id := "3704".data,
       fusion_router_id := 1, interface_mode := "weird".data },
     by decide, by decide⟩

/-- C10: with no handoff assigned to this router, the synthesizer returns
the "no handoffs" marker before VRF validation ever runs, so even invalid
VRF specifications raise nothing; VRF validation errors can only surface
for a router with at least one assigned handoff. -/
theorem c10_no_handoffs_marker :
    ∀ (params : FusionRouterParams) (bns : List BorderModel)
      (handoffs : List HandoffRec) (vrfs : List VrfParams)
      (ibgp : Option IbgpConfig),
      handoffs.filter (fun h => h.fusion_router_id = params.router_id) = [] →
      generate_fusion_router_config params bns handoffs vrfs ibgp =
        .ok (.noHandoffs params.hostname) := by
  intro params bns handoffs vrfs ibgp hf
  unfold generate_fusion_router_config
  rw [hf]

/-- Witness for C10: a handoff for router 2 and an invalid Route
Distinguisher still give router 1 the marker, with no error. -/
theorem c10_no_handoffs_marker_witness :
    generate_fusion_router_config ⟨1, "fr1".data, "10.0.0.1".data, "65000".data⟩ []
      [{ border_hostname := "bn-01".data, border_vlan_id := "3704".data,
         fusion_router_id := 2, interface_mode := "routed".data }]
      [{ name := "INTERNET".data, rd := "abc:1".data }] none =
      .ok (.noHandoffs "fr1".data) :=
  c10_no_handoffs_marker _ _ _ _ _ (by decide)

/-! ## C7: the iBGP builder -/

/-- C7: with iBGP enabled and exactly two fusion routers,
`build_ibgp_configs` raises the mismatch error naming the offending AS
values iff the two AS numbers differ; when they agree it returns exactly
two projections, each pointing at the other router's `bgp_router_id` via
`Loopback0` and naming the other router's hostname; with iBGP disabled or
fewer than two routers it returns `[]` without raising. -/
theorem c7_ibgp :
    (∀ (r1 r2 : FusionRouterInput) (p : IbgpParams), p.enabled = true →
      (r1.as_number ≠ r2.as_number →
        build_ibgp_configs [r1, r2] (some p) =
          .error (ibgpMismatchMsg [r1.as_number, r2.as_number])) ∧
      (r1.as_number = r2.as_number → ∃ c1 c2,
        build_ibgp_configs [r1, r2] (some p) = .ok [c1, c2] ∧
        c1.router_id = r1.router_id ∧ c1.peer_hostname = r2.hostname ∧
        c1.peer_ip = r2.bgp_router_id ∧ c1.update_source = "Loopback0".data ∧
        c2.router_id = r2.router_id ∧ c2.peer_hostname = r1.hostname ∧
        c2.peer_ip = r1.bgp_router_id ∧ c2.update_source = "Loopback0".data)) ∧
    (∀ frs : List FusionRouterInput, build_ibgp_configs frs none = .ok []) ∧
    (∀ (frs : List FusionRouterInput) (p : IbgpParams), p.enabled = false →
      build_ibgp_configs frs (some p) = .ok []) ∧
    (∀ (frs : List FusionRouterInput) (p : IbgpParams), frs.length < 2 →
      build_ibgp_configs frs (some p) = .ok []) := by
  refine ⟨?_, ?_, ?_, ?_⟩
  · intro r1 r2 p hp
    constructor
    · intro hne
      have hdedup : ([r1, r2].map (·.as_number)).dedup =
          [r1.as_number, r2.as_number] := by
        simp only [List.map_cons, List.map_nil]
        rw [List.dedup_cons_of_not_mem (by simp [hne]),
          List.dedup_cons_of_not_mem (by simp), List.dedup_nil]
      simp only [build_ibgp_configs]
      rw [if_neg (by simp [hp]), hdedup, if_pos (by simp)]
      rfl
    · intro heq
      have hdedup : ([r1, r2].map (·.as_number)).dedup = [r2.as_number] := by
        simp only [List.map_cons, List.map_nil]
        rw [List.dedup_cons_of_mem (by simp [heq]),
          List.dedup_cons_of_not_mem (by simp), List.dedup_nil]
      have hbuild : build_ibgp_configs [r1, r2] (some p) = .ok
          [{ enabled := true, router_id := r1.router_id, peering_type := "loopback".data,
             peer_hostname := r2.hostname, peer_ip := r2.bgp_router_id,
             update_source := "Loopback0".data, bfd_enabled := p.bfd_enabled.getD true,
             bfd_interval := p.bfd_interval.getD 250, bfd_min_rx := p.bfd_min_rx.getD 250,
             bfd_multiplier := p.bfd_multiplier.getD 3 },
           { enabled := true, router_id := r2.router_id, peering_type := "loopback".data,
             peer_hostname := r1.hostname, peer_ip := r1.bgp_router_id,
             update_source := "Loopback0".data, bfd_enabled := p.bfd_enabled.getD true,
             bfd_interval := p.bfd_interval.getD 250, bfd_min_rx := p.bfd_min_rx.getD 250,
             bfd_multiplier := p.bfd_multiplier.getD 3 }] := by
        simp only [build_ibgp_configs]
        rw [if_neg (by simp [hp]), hdedup, if_neg (by simp)]
        rfl
      exact ⟨_, _, hbuild, rfl, rfl, rfl, rfl, rfl, rfl, rfl, rfl⟩
  · intro frs
    rfl
  · intro frs p hp
    rw [build_ibgp_configs, if_pos (by simp [hp])]
  · intro frs p hlen
    rw [build_ibgp_configs, if_pos (by simp [hlen])]

/-- Witness for C7: AS `65000` against `65001` fails with the mismatch
message; two routers both in AS `65000` yield the two symmetric
projections; a single router yields no iBGP configuration. -/
theorem c7_ibgp_witness :
    build_ibgp_configs
      [⟨1, "fr1".data, "10.0.0.1".data, "65000".data⟩,
       ⟨2, "fr2".data, "10.0.0.2".data, "65001".data⟩]
      (some { enabled := true }) =
      .error (ibgpMismatchMsg ["65000".data, "65001".data]) ∧
    (∃ c1 c2,
      build_ibgp_configs
        [⟨1, "fr1".data, "10.0.0.1".data, "65000".data⟩,
         ⟨2, "fr2".data, "10.0.0.2".data, "65000".data⟩]
        (some { enabled := true }) = .ok [c1, c2] ∧
      c1.peer_ip = "10.0.0.2".data ∧ c1.update_source = "Loopback0".data ∧
      c2.peer_ip = "10.0.0.1".data ∧ c2.update_source = "Loopback0".data) ∧
    build_ibgp_configs [⟨1, "fr1".data, "10.0.0.1".data, "65000".data⟩]
      (some { enabled := true }) = .ok [] := by
  refine ⟨?_, ?_, ?_⟩
  · exact (c7_ibgp.1 _ _ _ rfl).1 (by decide)
  · obtain ⟨c1, c2, hok, _, _, hip1, hsrc1, _, _, hip2, hsrc2⟩ :=
      (c7_ibgp.1 ⟨1, "fr1".data, "10.0.0.1".data, "65000".data⟩
        ⟨2, "fr2".data, "10.0.0.2".data, "65000".data⟩ { enabled := true } rfl).2 rfl
    exact ⟨c1, c2, hok, hip1, hsrc1, hip2, hsrc2⟩
  · exact c7_ibgp.2.2.2 _ { enabled := true } (by decide)

/-! ## C8: the Route Distinguisher validator -/

theorem digit_not_colon {c : Char} (h : c.isDigit = true) : ¬c = ':' := by
  intro e
  subst e
  simp at h

theorem digit_or_dot_not_colon {c : Char} (h : (c.isDigit || c = '.') = true) :
    ¬c = ':' := by
  intro e
  subst e
  simp at h

theorem core_getLast_not_newline {a n : Str} (hn : n ≠ [])
    (hdn : ∀ c ∈ n, c.isDigit = true) :
    ∀ c, (a ++ ':' :: n).getLast? = some c → ¬c = '\n' := by
  intro c hc e
  subst e
  rcases List.eq_nil_or_concat n with rfl | ⟨ns, b, rfl⟩
  · exact hn rfl
  · rw [List.concat_eq_append] at hc hdn
    have hshape : a ++ ':' :: (ns ++ [b]) = (a ++ ':' :: ns) ++ [b] := by simp
    rw [hshape, List.getLast?_concat] at hc
    have hb : b = '\n' := Option.some.inj hc
    have hmem : b ∈ ns ++ [b] := by simp
    have := hdn b hmem
    rw [hb] at this
    simp at this

theorem dollarTrim_eq_iff {rd core : Str}
    (hlast : ∀ c, core.getLast? = some c → ¬c = '\n') :
    dollarTrim rd = core ↔ (rd = core ∨ rd = core ++ ['\n']) := by
  constructor
  · intro h
    rw [dollarTrim] at h
    split at h
    · rename_i hnl
      right
      have hrd : rd ≠ [] := by
        intro e
        rw [e] at hnl
        simp at hnl
      have hdg := List.dropLast_append_getLast hrd
      have hg : rd.getLast hrd = '\n' := by
        have he := List.getLast?_eq_getLast rd hrd
        rw [he] at hnl
        exact Option.some.inj hnl
      rw [← hdg, h, hg]
    · left
      exact h
  · intro h
    rcases h with rfl | rfl
    · rw [dollarTrim]
      split
      · rename_i hnl
        exact absurd rfl (hlast '\n' hnl)
      · rfl
    · rw [dollarTrim, if_pos (List.getLast?_concat _)]
      exact List.dropLast_concat

theorem matchAsnFormat_some {rd a n : Str} :
    matchAsnFormat rd = some (a, n) ↔
      dollarTrim rd = a ++ ':' :: n ∧ a ≠ [] ∧ (∀ c ∈ a, c.isDigit = true) ∧
        n ≠ [] ∧ (∀ c ∈ n, c.isDigit = true) := by
  constructor
  · intro h
    rw [matchAsnFormat] at h
    split at h
    · rename_i a' n' hsp
      split at h
      · rename_i hcond
        obtain ⟨rfl, rfl⟩ : a' = a ∧ n' = n := by
          have := Option.some.inj h
          exact ⟨congrArg Prod.fst this, congrArg Prod.snd this⟩
        simp only [Bool.and_eq_true, Bool.not_eq_true', List.isEmpty_eq_false,
          List.all_eq_true] at hcond
        obtain ⟨⟨⟨ha, hda⟩, hn⟩, hdn⟩ := hcond
        exact ⟨(splitOnChar_pair_iff.mp hsp).1, ha, hda, hn, hdn⟩
      · exact absurd h (by simp)
    · exact absurd h (by simp)
  · rintro ⟨heq, ha, hda, hn, hdn⟩
    have hca : ':' ∉ a := fun hm => digit_not_colon (hda _ hm) rfl
    have hcn : ':' ∉ n := fun hm => digit_not_colon (hdn _ hm) rfl
    have hsp : splitOnChar ':' (dollarTrim rd) = [a, n] := by
      rw [heq]
      exact splitOnChar_pair_iff.mpr ⟨rfl, hca, hcn⟩
    rw [matchAsnFormat, hsp]
    simp only [List.all_eq_true, Bool.and_eq_true, Bool.not_eq_true',
      List.isEmpty_eq_false]
    simp [ha, hn]
    exact ⟨hda, hdn⟩

theorem matchIpFormat_some {rd a n : Str} :
    matchIpFormat rd = some (a, n) ↔
      dollarTrim rd = a ++ ':' :: n ∧ a ≠ [] ∧
        (∀ c ∈ a, (c.isDigit || c = '.') = true) ∧
        n ≠ [] ∧ (∀ c ∈ n, c.isDigit = true) := by
  constructor
  · intro h
    rw [matchIpFormat] at h
    split at h
    · rename_i a' n' hsp
      split at h
      · rename_i hcond
        obtain ⟨rfl, rfl⟩ : a' = a ∧ n' = n := by
          have := Option.some.inj h
          exact ⟨congrArg Prod.fst this, congrArg Prod.snd this⟩
        simp only [Bool.and_eq_true, Bool.not_eq_true', List.isEmpty_eq_false,
          List.all_eq_true] at hcond
        obtain ⟨⟨⟨ha, hda⟩, hn⟩, hdn⟩ := hcond
        exact ⟨(splitOnChar_pair_iff.mp hsp).1, ha, hda, hn, hdn⟩
      · exact absurd h (by simp)
    · exact absurd h (by simp)
  · rintro ⟨heq, ha, hda, hn, hdn⟩
    have hca : ':' ∉ a := fun hm => digit_or_dot_not_colon (hda _ hm) rfl
    have hcn : ':' ∉ n := fun hm => digit_not_colon (hdn _ hm) rfl
    have hsp : splitOnChar ':' (dollarTrim rd) = [a, n] := by
      rw [heq]
      exact splitOnChar_pair_iff.mpr ⟨rfl, hca, hcn⟩
    rw [matchIpFormat, hsp]
    simp only [List.all_eq_true, Bool.and_eq_true, Bool.not_eq_true',
      List.isEmpty_eq_false]
    simp [ha, hn]
    exact ⟨fun x hx => by simpa using hda x hx, hdn⟩

theorem parseOctet_some {p : Str} {k : Nat} (h : parseOctet p = some k) :
    p ≠ [] ∧ ∀ c ∈ p, c.isDigit = true := by
  rw [parseOctet] at h
  split at h
  · rename_i hcond
    exact ⟨hcond.1, by simpa [List.all_eq_true] using hcond.2.2.1⟩
  · exact absurd h (by simp)

theorem mapM_parseOctet_mem :
    ∀ {l : List Str} {l' : List Nat}, l.mapM parseOctet = some l' →
      ∀ x ∈ l, ∃ k, parseOctet x = some k := by
  intro l
  induction l with
  | nil => intro l' _ x hx; simp at hx
  | cons p t ih =>
    intro l' hm x hx
    rw [List.mapM_cons] at hm
    cases hp : parseOctet p with
    | none => rw [hp] at hm; simp at hm
    | some k =>
      rw [hp] at hm
      cases ht : t.mapM parseOctet with
      | none => rw [ht] at hm; simp at hm
      | some t' =>
        rcases List.mem_cons.mp hx with rfl | hx'
        · exact ⟨k, hp⟩
        · exact ih ht x hx'

theorem mapM_parseOctet_length :
    ∀ {l : List Str} {l' : List Nat}, l.mapM parseOctet = some l' →
      l.length = l'.length := by
  intro l
  induction l with
  | nil =>
    intro l' hm
    have h0 : ([] : List Nat) = l' := Option.some.inj hm
    rw [← h0]
    rfl
  | cons p t ih =>
    intro l' hm
    rw [List.mapM_cons] at hm
    cases hp : parseOctet p with
    | none => rw [hp] at hm; simp at hm
    | some k =>
      rw [hp] at hm
      cases ht : t.mapM parseOctet with
      | none => rw [ht] at hm; simp at hm
      | some t' =>
        rw [ht] at hm
        simp at hm
        rw [← hm]
        simp [ih ht]

theorem parseIPv4_shape {a : Str} (h : (parseIPv4 a).isSome = true) :
    a ≠ [] ∧ (∀ c ∈ a, (c.isDigit || c = '.') = true) ∧
      ¬a.all Char.isDigit = true := by
  rw [parseIPv4] at h
  split at h
  · rename_i o1 o2 o3 o4 hm
    have hlen : (splitOnChar '.' a).length = 4 := by
      rw [mapM_parseOctet_length hm]
      rfl
    have hmem := mapM_parseOctet_mem hm
    obtain ⟨p1, p2, p3, p4, hps⟩ :
        ∃ p1 p2 p3 p4, splitOnChar '.' a = [p1, p2, p3, p4] := by
      rcases hsp : splitOnChar '.' a with _ | ⟨p1, _ | ⟨p2, _ | ⟨p3, _ | ⟨p4, _ | ⟨p5, r⟩⟩⟩⟩⟩ <;>
        rw [hsp] at hlen <;> simp at hlen
      exact ⟨p1, p2, p3, p4, rfl⟩
    have hjoin : a = p1 ++ '.' :: (p2 ++ '.' :: (p3 ++ '.' :: p4)) := by
      have := joinChar_splitOnChar '.' a
      rw [hps] at this
      simpa [joinChar] using this.symm
    have hdig : ∀ p ∈ [p1, p2, p3, p4], ∀ c ∈ p, c.isDigit = true := by
      intro p hp c hc
      obtain ⟨k, hk⟩ := hmem p (hps ▸ hp)
      exact (parseOctet_some hk).2 c hc
    refine ⟨?_, ?_, ?_⟩
    · rw [hjoin]
      simp
    · intro c hc
      rw [hjoin] at hc
      simp only [List.mem_append, List.mem_cons] at hc
      rcases hc with h1 | rfl | h2 | rfl | h3 | rfl | h4
      · simp [hdig p1 (by simp) c h1]
      · simp
      · simp [hdig p2 (by simp) c h2]
      · simp
      · simp [hdig p3 (by simp) c h3]
      · simp
      · simp [hdig p4 (by simp) c h4]
    · intro hall
      have hdot : '.' ∈ a := by
        rw [hjoin]
        simp
      have := List.all_eq_true.mp hall '.' hdot
      simp at this
  · simp at h

theorem validate_result_shape {rd : Str} (hne : rd ≠ []) :
    validate_route_distinguisher rd = (true, none) ∨
      validate_route_distinguisher rd = (false, some rdFormatMsg) := by
  rw [validate_route_distinguisher, if_neg (by simpa using hne)]
  split
  · split
    · left; rfl
    · split
      · split
        · left; rfl
        · right; rfl
      · right; rfl
  · split
    · split
      · left; rfl
      · right; rfl
    · right; rfl

theorem validate_accepts_iff (rd : Str) :
    validate_route_distinguisher rd = (true, none) ↔ rdWellFormed rd := by
  constructor
  · intro hacc
    rw [validate_route_distinguisher] at hacc
    split at hacc
    · exact absurd hacc (by simp)
    · rename_i hne
      split at hacc
      · rename_i p hasn
        obtain ⟨a, n⟩ := p
        split at hacc
        · rename_i hb
          obtain ⟨heq, ha, hda, hn, hdn⟩ := matchAsnFormat_some.mp hasn
          exact ⟨a, n,
            (dollarTrim_eq_iff (core_getLast_not_newline hn hdn)).mp heq,
            hn, hdn, hb.2, Or.inl ⟨ha, hda, hb.1⟩⟩
        · split at hacc
          · rename_i q hip
            obtain ⟨a', n'⟩ := q
            split at hacc
            · rename_i hb2
              obtain ⟨heq, _, _, hn', hdn'⟩ := matchIpFormat_some.mp hip
              exact ⟨a', n',
                (dollarTrim_eq_iff (core_getLast_not_newline hn' hdn')).mp heq,
                hn', hdn', hb2.2, Or.inr hb2.1⟩
            · exact absurd hacc (by simp)
          · exact absurd hacc (by simp)
      · split at hacc
        · rename_i q hip
          obtain ⟨a', n'⟩ := q
          split at hacc
          · rename_i hb2
            obtain ⟨heq, _, _, hn', hdn'⟩ := matchIpFormat_some.mp hip
            exact ⟨a', n',
              (dollarTrim_eq_iff (core_getLast_not_newline hn' hdn')).mp heq,
              hn', hdn', hb2.2, Or.inr hb2.1⟩
          · exact absurd hacc (by simp)
        · exact absurd hacc (by simp)
  · rintro ⟨a, n, hor, hn, hdn, hbn, hcase⟩
    have heq : dollarTrim rd = a ++ ':' :: n :=
      (dollarTrim_eq_iff (core_getLast_not_newline hn hdn)).mpr hor
    have hne' : ¬rd.isEmpty = true := by
      rcases hor with rfl | rfl <;> simp [List.isEmpty_eq_true]
    rcases hcase with ⟨ha, hda, hba⟩ | hip
    · have hasn : matchAsnFormat rd = some (a, n) :=
        matchAsnFormat_some.mpr ⟨heq, ha, hda, hn, hdn⟩
      rw [validate_route_distinguisher, if_neg hne', hasn]
      simp [hba, hbn]
    · obtain ⟨ha, hda, hnotall⟩ := parseIPv4_shape hip
      have hipf : matchIpFormat rd = some (a, n) :=
        matchIpFormat_some.mpr ⟨heq, ha, hda, hn, hdn⟩
      have hasn : matchAsnFormat rd = none := by
        cases hm : matchAsnFormat rd with
        | none => rfl
        | some p =>
          obtain ⟨a', n'⟩ := p
          obtain ⟨heq', _, hda', hn', hdn'⟩ := matchAsnFormat_some.mp hm
          have hca : ':' ∉ a := fun hmem => digit_or_dot_not_colon (hda _ hmem) rfl
          have hca' : ':' ∉ a' := fun hmem => digit_not_colon (hda' _ hmem) rfl
          have hsp : splitOnChar ':' (a ++ ':' :: n) = [a, n] :=
            splitOnChar_pair_iff.mpr
              ⟨rfl, hca, fun hmem => digit_not_colon (hdn _ hmem) rfl⟩
          have hsp' : splitOnChar ':' (a ++ ':' :: n) = [a', n'] := by
            rw [← heq, heq']
            exact splitOnChar_pair_iff.mpr
              ⟨rfl, hca', fun hmem => digit_not_colon (hdn' _ hmem) rfl⟩
          have haa : a = a' := (List.cons.inj (hsp.symm.trans hsp')).1
          exact absurd (List.all_eq_true.mpr (haa ▸ hda')) hnotall
      rw [validate_route_distinguisher, if_neg hne', hasn, hipf]
      simp [hip, hbn]

/-- C8 (amended, for ASCII input, where `\d` is exactly `[0-9]`):
`validate_route_distinguisher` accepts exactly the strings `A:N` —
optionally followed by a single trailing newline, which the `$` anchors of
both patterns tolerate — with `N` a decimal number at most 65535 and `A`
either a decimal number at most 4294967295 or a syntactically valid IPv4
address.  The empty string is rejected with the separate "required"
message; every other rejected input gets the format message, which names
both accepted forms. -/
theorem c8_amended :
    ∀ rd : Str, (∀ c ∈ rd, c.toNat < 128) →
      (validate_route_distinguisher rd = (true, none) ↔ rdWellFormed rd) ∧
      (rd = [] → validate_route_distinguisher rd = (false, some rdRequiredMsg)) ∧
      (rd ≠ [] → ¬rdWellFormed rd →
        validate_route_distinguisher rd = (false, some rdFormatMsg)) ∧
      containsSub "ASN:NN".data rdFormatMsg = true ∧
      containsSub "IP:NN".data rdFormatMsg = true := by
  intro rd _
  refine ⟨validate_accepts_iff rd, ?_, ?_, by decide, by decide⟩
  · rintro rfl
    rfl
  · intro hne hnwf
    rcases validate_result_shape hne with h | h
    · exact absurd ((validate_accepts_iff rd).mp h) hnwf
    · exact h

/-- Counterexample to C8 as stated: the empty string is rejected with the
"required" message, which does not name the two accepted forms; and
`65000:100` followed by a newline is accepted although it is not of the
form `A:N` with `N` a string of decimal digits (the `$` of the pattern
matches before a single trailing newline). -/
theorem c8_counterexample :
    validate_route_distinguisher [] = (false, some rdRequiredMsg) ∧
    containsSub "ASN:NN".data rdRequiredMsg = false ∧
    containsSub "IP:NN".data rdRequiredMsg = false ∧
    rdRequiredMsg ≠ rdFormatMsg ∧
    validate_route_distinguisher ("65000:100".data ++ ['\n']) = (true, none) ∧
    Char.isDigit '\n' = false := by
  decide

/-- Witness for C8 (amended) on `65000:100` (accepted), `10.0.0.1:100`
(accepted via the IPv4 arm), `65000:100` with a trailing newline
(accepted via the `$` quirk) and the empty string (rejected as required). -/
theorem c8_amended_witness :
    validate_route_distinguisher "65000:100".data = (true, none) ∧
    validate_route_distinguisher "10.0.0.1:100".data = (true, none) ∧
    validate_route_distinguisher ("65000:100".data ++ ['\n']) = (true, none) ∧
    validate_route_distinguisher [] = (false, some rdRequiredMsg) :=
  ⟨(c8_amended "65000:100".data (by decide)).1.mpr
      ⟨"65000".data, "100".data, Or.inl (by decide), by decide, by decide,
        by decide, Or.inl ⟨by decide, by decide, by decide⟩⟩,
   (c8_amended "10.0.0.1:100".data (by decide)).1.mpr
      ⟨"10.0.0.1".data, "100".data, Or.inl (by decide), by decide, by decide,
        by decide, Or.inr (by decide)⟩,
   (c8_amended ("65000:100".data ++ ['\n']) (by decide)).1.mpr
      ⟨"65000".data, "100".data, Or.inr (by decide), by decide, by decide,
        by decide, Or.inl ⟨by decide, by decide, by decide⟩⟩,
   (c8_amended [] (by decide)).2.1 rfl⟩
